import Mathlib

/-!
Verification of the debounce logic in `basic_example_interrupts.c`.

The program coordinates a GPIO edge ISR (`PORT1_IRQHandler`), a Timer32
expiry ISR (`Debounce_Over`) and a polling consumer (`S1tapped`, called
from `main`) through two volatile boolean flags.  We embed the machine
state (the two flags, the Timer32 registers, the two interrupt-pending
bits, and the two LEDs) as a structure and each C function as a pure
state transformer, then prove the spec claims about them.
-/

/-- The observable machine state: the two shared flags, the Timer32
count/run/one-shot registers, the pin-1 and Timer32 interrupt-pending
bits, and the two LEDs (LED1 on P1.0, the blue LED2 on P2.2). -/
structure MachineState where
  S1modified : Bool
  TimerExpired : Bool
  p1pin1IntFlag : Bool
  t32IntFlag : Bool
  timerCount : Nat
  timerRunning : Bool
  timerOneShot : Bool
  led1 : Bool
  led2Blue : Bool
deriving DecidableEq, Repr

/-- The debounce wait of the C source: `#define DEBOUNCE_WAIT 600000`. -/
def DEBOUNCE_WAIT : Nat := 600000

/-- HAL: `GPIO_getInterruptStatus(GPIO_PORT_P1, GPIO_PIN1)`. -/
def GPIO_getInterruptStatus (s : MachineState) : Bool :=
  s.p1pin1IntFlag

/-- HAL: `GPIO_clearInterruptFlag(GPIO_PORT_P1, GPIO_PIN1)`. -/
def GPIO_clearInterruptFlag (s : MachineState) : MachineState :=
  { s with p1pin1IntFlag := false }

/-- HAL: `Timer32_clearInterruptFlag(TIMER32_0_BASE)`. -/
def Timer32_clearInterruptFlag (s : MachineState) : MachineState :=
  { s with t32IntFlag := false }

/-- HAL: `Timer32_setCount(TIMER32_0_BASE, c)`. -/
def Timer32_setCount (s : MachineState) (c : Nat) : MachineState :=
  { s with timerCount := c }

/-- HAL: `Timer32_startTimer(TIMER32_0_BASE, oneShot)`. -/
def Timer32_startTimer (s : MachineState) (oneShot : Bool) : MachineState :=
  { s with timerRunning := true, timerOneShot := oneShot }

/-- `TurnOn_Launchpad_LED2Blue`: drives P2.2 high. -/
def TurnOn_Launchpad_LED2Blue (s : MachineState) : MachineState :=
  { s with led2Blue := true }

/-- `TurnOff_Launchpad_LED2Blue`: drives P2.2 low. -/
def TurnOff_Launchpad_LED2Blue (s : MachineState) : MachineState :=
  { s with led2Blue := false }

/-- `Toggle_Launchpad_LED1`: toggles P1.0. -/
def Toggle_Launchpad_LED1 (s : MachineState) : MachineState :=
  { s with led1 := !s.led1 }

/-- The port-1 edge ISR: if the pin-1 interrupt status is asserted it
sets `S1modified`, then unconditionally clears the pin-1 pending bit. -/
def PORT1_IRQHandler (s : MachineState) : MachineState :=
  let s1 := if GPIO_getInterruptStatus s then { s with S1modified := true } else s
  GPIO_clearInterruptFlag s1

/-- The Timer32 ISR: sets `TimerExpired` and clears the Timer32
interrupt-pending condition. -/
def Debounce_Over (s : MachineState) : MachineState :=
  Timer32_clearInterruptFlag { s with TimerExpired := true }

/-- `S1tapped`: the polling consumer.  If `S1modified` it loads the
debounce count, starts the timer one-shot, turns on the blue LED,
clears `S1modified` and reports `false`; else if `TimerExpired` it
turns off the blue LED, clears `TimerExpired` and reports `true`;
else it reports `false`.  Returns the new state and the report. -/
def S1tapped (s : MachineState) : MachineState × Bool :=
  if s.S1modified then
    let s1 := Timer32_startTimer (Timer32_setCount s DEBOUNCE_WAIT) true
    let s2 := TurnOn_Launchpad_LED2Blue s1
    ({ s2 with S1modified := false }, false)
  else if s.TimerExpired then
    let s1 := TurnOff_Launchpad_LED2Blue s
    ({ s1 with TimerExpired := false }, true)
  else
    (s, false)

/-- One iteration of the `while (1)` loop in `main`: the low-power wait
changes no modelled state; then `S1tapped` runs and LED1 is toggled
exactly when it returned `true`. -/
def mainLoopIter (s : MachineState) : MachineState :=
  let r := S1tapped s
  if r.snd then Toggle_Launchpad_LED1 r.fst else r.fst

/-- The events that can interleave at run time: a high-to-low edge on
P1.1 (the hardware asserts the pin-1 pending bit, then the port-1 ISR
runs), a Timer32 expiry (the hardware asserts the Timer32 pending bit,
then the registered ISR runs), or one main-loop iteration. -/
inductive Event where
  | edge
  | timerExpiry
  | loopIter
deriving DecidableEq, Repr

/-- The step taken by each event. -/
def step (s : MachineState) : Event → MachineState
  | Event.edge => PORT1_IRQHandler { s with p1pin1IntFlag := true }
  | Event.timerExpiry => Debounce_Over { s with t32IntFlag := true }
  | Event.loopIter => mainLoopIter s

/-- Run a sequence of events from a state. -/
def runTrace (s : MachineState) : List Event → MachineState
  | [] => s
  | e :: t => runTrace (step s e) t

/-- Reset state: both flags start `false` (their C initializers), the
timer is not running, pending bits clear, LEDs off. -/
def initState : MachineState :=
  ⟨false, false, false, false, 0, false, false, false, false⟩

/-- Number of events in a trace whose step takes the observed boolean
from `false` to `true` (a "set" of the flag `f`). -/
def countSet (f : MachineState → Bool) (s : MachineState) : List Event → Nat
  | [] => 0
  | e :: t =>
      (if !(f s) && f (step s e) then 1 else 0) + countSet f (step s e) t

/-- Number of events in a trace whose step takes the observed boolean
from `true` to `false` (a "clear" of the flag `f`). -/
def countClear (f : MachineState → Bool) (s : MachineState) : List Event → Nat
  | [] => 0
  | e :: t =>
      (if f s && !(f (step s e)) then 1 else 0) + countClear f (step s e) t

/-- Number of main-loop iterations in a trace that start the debounce
timer (iterations entered with `S1modified` set). -/
def countTimerStarts (s : MachineState) : List Event → Nat
  | [] => 0
  | Event.loopIter :: t =>
      (if s.S1modified then 1 else 0) +
        countTimerStarts (step s Event.loopIter) t
  | e :: t => countTimerStarts (step s e) t

/-- Number of high-to-low edges (edge events) in a trace.  In this
model every edge event asserts the pin-1 status, so this is also the
number of ISR invocations that assign `true` to `S1modified`. -/
def countEdges : List Event → Nat
  | [] => 0
  | Event.edge :: t => 1 + countEdges t
  | _ :: t => countEdges t

/-- A state in which both `S1modified` and `TimerExpired` are set on
entry to `S1tapped`. -/
def bothFlagsState : MachineState :=
  { initState with S1modified := true, TimerExpired := true }

/-- C1 (counterexample): called with both flags set, `S1tapped` takes
only the `S1modified` branch: on return `TimerExpired` is still `true`
(and the blue LED is on, not off), so the deferred action was not taken
and the flags are not both false. -/
theorem S1tapped_both_flags_counterexample :
    (S1tapped bothFlagsState).fst.TimerExpired = true ∧
    (S1tapped bothFlagsState).fst.led2Blue = true ∧
    ¬((S1tapped bothFlagsState).fst.S1modified = false ∧
      (S1tapped bothFlagsState).fst.TimerExpired = false) := by
  refine ⟨rfl, rfl, ?_⟩
  intro h
  exact absurd h.2 (by decide)

/-- C1 (amended): called with both flags set, `S1tapped` performs only
the button-branch actions — it starts the timer with `DEBOUNCE_WAIT`,
turns on the blue LED, clears `S1modified` and returns `false` — while
`TimerExpired` remains `true`, left for a later iteration. -/
theorem S1tapped_both_flags (s : MachineState) (h1 : s.S1modified = true)
    (h2 : s.TimerExpired = true) :
    (S1tapped s).fst.timerCount = DEBOUNCE_WAIT ∧
    (S1tapped s).fst.timerRunning = true ∧
    (S1tapped s).fst.led2Blue = true ∧
    (S1tapped s).fst.S1modified = false ∧
    (S1tapped s).fst.TimerExpired = true ∧
    (S1tapped s).snd = false := by
  simp [S1tapped, h1, h2, Timer32_startTimer, Timer32_setCount,
    TurnOn_Launchpad_LED2Blue]

/-- Witness for the amended C1 at the concrete state `bothFlagsState`. -/
theorem S1tapped_both_flags_witness :
    (S1tapped bothFlagsState).fst.timerCount = DEBOUNCE_WAIT ∧
    (S1tapped bothFlagsState).fst.timerRunning = true ∧
    (S1tapped bothFlagsState).fst.led2Blue = true ∧
    (S1tapped bothFlagsState).fst.S1modified = false ∧
    (S1tapped bothFlagsState).fst.TimerExpired = true ∧
    (S1tapped bothFlagsState).snd = false :=
  S1tapped_both_flags bothFlagsState rfl rfl

/-- C2: whenever `S1modified` is set on entry, `S1tapped` loads the
timer with `DEBOUNCE_WAIT`, starts it, turns on the blue LED, clears
`S1modified` and returns `false`. -/
theorem S1tapped_button_branch (s : MachineState) (h : s.S1modified = true) :
    (S1tapped s).fst.timerCount = DEBOUNCE_WAIT ∧
    (S1tapped s).fst.timerRunning = true ∧
    (S1tapped s).fst.led2Blue = true ∧
    (S1tapped s).fst.S1modified = false ∧
    (S1tapped s).snd = false := by
  simp [S1tapped, h, Timer32_startTimer, Timer32_setCount,
    TurnOn_Launchpad_LED2Blue]

/-- Witness for C2 at a concrete state with `S1modified` set. -/
theorem S1tapped_button_branch_witness :
    (S1tapped { initState with S1modified := true }).fst.timerCount
        = DEBOUNCE_WAIT ∧
    (S1tapped { initState with S1modified := true }).fst.timerRunning = true ∧
    (S1tapped { initState with S1modified := true }).fst.led2Blue = true ∧
    (S1tapped { initState with S1modified := true }).fst.S1modified = false ∧
    (S1tapped { initState with S1modified := true }).snd = false :=
  S1tapped_button_branch { initState with S1modified := true } rfl

/-- C3: with `S1modified` clear and `TimerExpired` set, `S1tapped`
turns off the blue LED, clears `TimerExpired` and returns `true`; and
in the main loop LED1 is toggled exactly when `S1tapped` returns
`true` (otherwise it is unchanged). -/
theorem S1tapped_confirm_and_toggle (s : MachineState) :
    (s.S1modified = false → s.TimerExpired = true →
      (S1tapped s).fst.led2Blue = false ∧
      (S1tapped s).fst.TimerExpired = false ∧
      (S1tapped s).snd = true) ∧
    (mainLoopIter s).led1 = cond (S1tapped s).snd (!s.led1) s.led1 := by
  cases h1 : s.S1modified <;> cases h2 : s.TimerExpired <;>
    simp [S1tapped, mainLoopIter, h1, h2, Timer32_startTimer,
      Timer32_setCount, TurnOn_Launchpad_LED2Blue,
      TurnOff_Launchpad_LED2Blue, Toggle_Launchpad_LED1]

/-- Witness for C3 at a concrete state with only `TimerExpired` set. -/
theorem S1tapped_confirm_and_toggle_witness :
    ((S1tapped { initState with TimerExpired := true }).fst.led2Blue = false ∧
      (S1tapped { initState with TimerExpired := true }).fst.TimerExpired
        = false ∧
      (S1tapped { initState with TimerExpired := true }).snd = true) ∧
    (mainLoopIter { initState with TimerExpired := true }).led1
      = cond (S1tapped { initState with TimerExpired := true }).snd
          (!({ initState with TimerExpired := true } : MachineState).led1)
          ({ initState with TimerExpired := true } : MachineState).led1 :=
  ⟨(S1tapped_confirm_and_toggle { initState with TimerExpired := true }).1
      rfl rfl,
    (S1tapped_confirm_and_toggle { initState with TimerExpired := true }).2⟩

/-- C4: on every invocation of the port-1 ISR, if the pin-1 interrupt
status is asserted then `S1modified` is set to `true`, and in every
invocation the pin-1 pending bit is cleared on return. -/
theorem PORT1_IRQHandler_spec (s : MachineState) :
    (s.p1pin1IntFlag = true → (PORT1_IRQHandler s).S1modified = true) ∧
    (PORT1_IRQHandler s).p1pin1IntFlag = false := by
  cases h : s.p1pin1IntFlag <;>
    simp [PORT1_IRQHandler, GPIO_getInterruptStatus,
      GPIO_clearInterruptFlag, h]

/-- Witness for C4 at a concrete state with the pin-1 status asserted. -/
theorem PORT1_IRQHandler_spec_witness :
    (PORT1_IRQHandler { initState with p1pin1IntFlag := true }).S1modified
        = true ∧
    (PORT1_IRQHandler { initState with p1pin1IntFlag := true }).p1pin1IntFlag
        = false :=
  ⟨(PORT1_IRQHandler_spec { initState with p1pin1IntFlag := true }).1 rfl,
    (PORT1_IRQHandler_spec { initState with p1pin1IntFlag := true }).2⟩

/-- C5: every invocation of the Timer32 ISR sets `TimerExpired` and
clears the Timer32 interrupt-pending condition. -/
theorem Debounce_Over_spec (s : MachineState) :
    (Debounce_Over s).TimerExpired = true ∧
    (Debounce_Over s).t32IntFlag = false := by
  simp [Debounce_Over, Timer32_clearInterruptFlag]

/-- C9: with both flags clear on entry, `S1tapped` is a complete no-op
returning `false`: the state (flags, timer, pending bits and both
LEDs) is returned unchanged. -/
theorem S1tapped_noop (s : MachineState) (h1 : s.S1modified = false)
    (h2 : s.TimerExpired = false) :
    S1tapped s = (s, false) := by
  simp [S1tapped, h1, h2]

/-- Witness for C9 at the reset state. -/
theorem S1tapped_noop_witness :
    S1tapped initState = (initState, false) :=
  S1tapped_noop initState rfl rfl

/-- C6: write discipline of the two flags — the timer ISR never writes
`S1modified` and the edge ISR never writes `TimerExpired`; the consumer
`S1tapped` always leaves `S1modified` clear (it only ever assigns
`false` to it) and never raises `TimerExpired`; the edge ISR never
clears `S1modified` and the timer ISR only raises `TimerExpired`. -/
theorem flag_write_discipline (s : MachineState) :
    (Debounce_Over s).S1modified = s.S1modified ∧
    (PORT1_IRQHandler s).TimerExpired = s.TimerExpired ∧
    (S1tapped s).fst.S1modified = false ∧
    ((S1tapped s).fst.TimerExpired = true → s.TimerExpired = true) ∧
    ((PORT1_IRQHandler s).S1modified = false → s.S1modified = false) ∧
    (Debounce_Over s).TimerExpired = true := by
  cases h1 : s.S1modified <;> cases h2 : s.TimerExpired <;>
    cases h3 : s.p1pin1IntFlag <;>
    simp [S1tapped, PORT1_IRQHandler, Debounce_Over,
      GPIO_getInterruptStatus, GPIO_clearInterruptFlag,
      Timer32_clearInterruptFlag, Timer32_startTimer, Timer32_setCount,
      TurnOn_Launchpad_LED2Blue, TurnOff_Launchpad_LED2Blue, h1, h2, h3]

/-- Witness for C6: the inner implications discharged at concrete
states (`S1tapped` keeps `TimerExpired` raised at `bothFlagsState`; the
edge ISR leaves `S1modified` clear at the reset state). -/
theorem flag_write_discipline_witness :
    bothFlagsState.TimerExpired = true ∧ initState.S1modified = false :=
  ⟨(flag_write_discipline bothFlagsState).2.2.2.1 (by decide),
    (flag_write_discipline initState).2.2.2.2.1 (by decide)⟩

/-- C8: no operation of the program stops the timer once running, and
the only writes to the timer registers are by a start — the ISRs never
touch the count, and when `S1tapped` (or a loop iteration) changes the
count it is because `S1modified` was set and the timer was started
with `DEBOUNCE_WAIT`. -/
theorem timer_never_stopped (s : MachineState) :
    (s.timerRunning = true →
      (PORT1_IRQHandler s).timerRunning = true ∧
      (Debounce_Over s).timerRunning = true ∧
      (S1tapped s).fst.timerRunning = true ∧
      (mainLoopIter s).timerRunning = true) ∧
    (PORT1_IRQHandler s).timerCount = s.timerCount ∧
    (Debounce_Over s).timerCount = s.timerCount ∧
    ((S1tapped s).fst.timerCount ≠ s.timerCount →
      s.S1modified = true ∧ (S1tapped s).fst.timerCount = DEBOUNCE_WAIT ∧
        (S1tapped s).fst.timerRunning = true) ∧
    ((mainLoopIter s).timerCount ≠ s.timerCount →
      s.S1modified = true ∧ (mainLoopIter s).timerCount = DEBOUNCE_WAIT ∧
        (mainLoopIter s).timerRunning = true) := by
  cases h1 : s.S1modified <;> cases h2 : s.TimerExpired <;>
    cases h3 : s.p1pin1IntFlag <;>
    simp [S1tapped, PORT1_IRQHandler, Debounce_Over, mainLoopIter,
      GPIO_getInterruptStatus, GPIO_clearInterruptFlag,
      Timer32_clearInterruptFlag, Timer32_startTimer, Timer32_setCount,
      TurnOn_Launchpad_LED2Blue, TurnOff_Launchpad_LED2Blue,
      Toggle_Launchpad_LED1, h1, h2, h3]

/-- Witness for C8: hypotheses discharged at concrete states — a state
with the timer running, and a state where the button branch rewrites
the count from `0` to `DEBOUNCE_WAIT`. -/
theorem timer_never_stopped_witness :
    ((PORT1_IRQHandler { initState with timerRunning := true }).timerRunning
          = true ∧
      (Debounce_Over { initState with timerRunning := true }).timerRunning
          = true ∧
      (S1tapped { initState with timerRunning := true }).fst.timerRunning
          = true ∧
      (mainLoopIter { initState with timerRunning := true }).timerRunning
          = true) ∧
    (({ initState with S1modified := true } : MachineState).S1modified
          = true ∧
      (S1tapped { initState with S1modified := true }).fst.timerCount
          = DEBOUNCE_WAIT ∧
      (S1tapped { initState with S1modified := true }).fst.timerRunning
          = true) :=
  ⟨(timer_never_stopped { initState with timerRunning := true }).1 rfl,
    (timer_never_stopped { initState with S1modified := true }).2.2.2.1
      (by decide)⟩

/-- C10: frame conditions — the edge ISR writes neither `TimerExpired`
nor any LED; the timer ISR writes neither `S1modified` nor any LED;
`S1tapped` never drives LED1; and a main-loop iteration changes LED1
only by the toggle, exactly when `S1tapped` returns `true`. -/
theorem isr_frame_conditions (s : MachineState) :
    (PORT1_IRQHandler s).TimerExpired = s.TimerExpired ∧
    (PORT1_IRQHandler s).led1 = s.led1 ∧
    (PORT1_IRQHandler s).led2Blue = s.led2Blue ∧
    (Debounce_Over s).S1modified = s.S1modified ∧
    (Debounce_Over s).led1 = s.led1 ∧
    (Debounce_Over s).led2Blue = s.led2Blue ∧
    (S1tapped s).fst.led1 = s.led1 ∧
    (mainLoopIter s).led1 = cond (S1tapped s).snd (!s.led1) s.led1 := by
  cases h1 : s.S1modified <;> cases h2 : s.TimerExpired <;>
    cases h3 : s.p1pin1IntFlag <;>
    simp [S1tapped, PORT1_IRQHandler, Debounce_Over, mainLoopIter,
      GPIO_getInterruptStatus, GPIO_clearInterruptFlag,
      Timer32_clearInterruptFlag, Timer32_startTimer, Timer32_setCount,
      TurnOn_Launchpad_LED2Blue, TurnOff_Launchpad_LED2Blue,
      Toggle_Launchpad_LED1, h1, h2, h3]

/-- After an edge event `S1modified` is always set (the event itself
asserts the pin-1 status that the ISR tests). -/
theorem step_edge_S1modified (s : MachineState) :
    (step s Event.edge).S1modified = true := by
  simp [step, PORT1_IRQHandler, GPIO_getInterruptStatus,
    GPIO_clearInterruptFlag]

/-- A timer-expiry event leaves `S1modified` unchanged. -/
theorem step_timerExpiry_S1modified (s : MachineState) :
    (step s Event.timerExpiry).S1modified = s.S1modified :=
  rfl

/-- After a main-loop iteration `S1modified` is always clear: the
button branch clears it and the other branches require it clear. -/
theorem step_loopIter_S1modified (s : MachineState) :
    (step s Event.loopIter).S1modified = false := by
  cases h1 : s.S1modified <;> cases h2 : s.TimerExpired <;>
    simp [step, mainLoopIter, S1tapped, Timer32_startTimer,
      Timer32_setCount, TurnOn_Launchpad_LED2Blue,
      TurnOff_Launchpad_LED2Blue, Toggle_Launchpad_LED1, h1, h2]

/-- Telescoping accounting for any observed flag along a trace: clears
plus the final value equal sets plus the initial value. -/
theorem countClear_add_final (f : MachineState → Bool) (s : MachineState)
    (t : List Event) :
    countClear f s t + (f (runTrace s t)).toNat
      = countSet f s t + (f s).toNat := by
  induction t generalizing s with
  | nil => simp [countClear, countSet, runTrace]
  | cons e t ih =>
      have h := ih (step s e)
      simp only [countClear, countSet, runTrace]
      cases ha : f s <;> cases hb : f (step s e) <;>
        simp only [ha, hb] at h ⊢ <;> simp at h ⊢ <;> omega

/-- The timer is started exactly when a loop iteration clears
`S1modified`: the two counters agree on every trace. -/
theorem countTimerStarts_eq_countClear (s : MachineState)
    (t : List Event) :
    countTimerStarts s t = countClear (fun m => m.S1modified) s t := by
  induction t generalizing s with
  | nil => rfl
  | cons e t ih =>
      cases e with
      | edge =>
          have hb := step_edge_S1modified s
          simp [countTimerStarts, countClear, hb, ih]
      | timerExpiry =>
          have hb := step_timerExpiry_S1modified s
          simp [countTimerStarts, countClear, hb, ih]
      | loopIter =>
          have hb := step_loopIter_S1modified s
          cases ha : s.S1modified <;>
            simp [countTimerStarts, countClear, ha, hb, ih]

/-- C7 (amended): on every trace from reset, each flag undergoes a
true-to-false clearing transition exactly once per false-to-true
setting transition, up to the one still pending at the end; and the
timer is started exactly once per clearing (consumption) of
`S1modified` — not once per edge, since edges arriving while the flag
is still set coalesce into a single set. -/
theorem trace_flag_accounting (t : List Event) :
    countClear (fun m => m.S1modified) initState t
        + ((runTrace initState t).S1modified).toNat
      = countSet (fun m => m.S1modified) initState t ∧
    countClear (fun m => m.TimerExpired) initState t
        + ((runTrace initState t).TimerExpired).toNat
      = countSet (fun m => m.TimerExpired) initState t ∧
    countTimerStarts initState t
      = countClear (fun m => m.S1modified) initState t := by
  refine ⟨?_, ?_, countTimerStarts_eq_countClear initState t⟩
  · have h := countClear_add_final (fun m => m.S1modified) initState t
    simpa [initState] using h
  · have h := countClear_add_final (fun m => m.TimerExpired) initState t
    simpa [initState] using h

/-- A bouncing trace: two high-to-low edges arrive before the main
loop runs once. -/
def bounceTrace : List Event :=
  [Event.edge, Event.edge, Event.loopIter]

/-- C7 (counterexample): on `bounceTrace` there are two qualifying
edges (two ISR invocations that assign `true` to `S1modified`) but the
flag is cleared only once and the timer is started only once — not
once per edge. -/
theorem bounce_trace_counterexample :
    countEdges bounceTrace = 2 ∧
    countClear (fun m => m.S1modified) initState bounceTrace = 1 ∧
    countTimerStarts initState bounceTrace = 1 ∧
    countTimerStarts initState bounceTrace ≠ countEdges bounceTrace := by
  refine ⟨rfl, ?_, ?_, ?_⟩ <;> decide
